import Mathlib

/-!
Shallow embedding of the run-telemetry analytics core of `fit-check`
(`src/fitness/analysis/*.py`, `src/fitness/garmin/fit_parser.py`,
`src/fitness/analysis/timeseries.py`) together with theorems settling the
specification claims.

Numeric convention: Python floats are embedded as exact rationals (ℚ);
Python ints as ℤ.  Python truthiness of a numeric `or` is modelled
explicitly (zero is falsy).  `int(x)` truncates toward zero.
-/

/-- Python `int(x)` on a float/number: truncation toward zero. -/
def pyInt (q : ℚ) : ℤ := if 0 ≤ q then ⌊q⌋ else ⌈q⌉

/-- Python `a or b` on optional numerics: `a` when present and non-zero
(truthy), else `b`. -/
def pyOr (a b : Option ℚ) : Option ℚ :=
  match a with
  | some x => if x = 0 then b else some x
  | none => b

/-- Python `round(x, d)` (round half to even), on exact rationals. -/
def pyRound (x : ℚ) (d : ℕ) : ℚ :=
  let y : ℚ := x * (10 : ℚ) ^ d
  let f : ℤ := ⌊y⌋
  let r : ℤ :=
    if y - (f : ℚ) < 1/2 then f
    else if (1:ℚ)/2 < y - (f : ℚ) then f + 1
    else if f % 2 = 0 then f else f + 1
  (r : ℚ) / (10 : ℚ) ^ d

/-- `statistics.mean` on a list of rationals (callers guarantee non-empty;
on `[]` we return 0, a branch the embedded code never reaches). -/
def listMean (xs : List ℚ) : ℚ := xs.sum / xs.length

/-- Python `max(...)` over a non-empty numeric list (0 on `[]`, unreached). -/
def listMax (xs : List ℚ) : ℚ :=
  match xs with
  | [] => 0
  | x :: rest => rest.foldl max x

/-- `statistics.median`: sort, take the middle element (odd length) or the
mean of the two middle elements (even length). -/
def listMedian (xs : List ℚ) : ℚ :=
  let s := xs.mergeSort (fun a b => decide (a ≤ b))
  let n := s.length
  if n % 2 = 1 then s.getD (n / 2) 0
  else (s.getD (n / 2 - 1) 0 + s.getD (n / 2) 0) / 2

/-- Sample variance `statistics.stdev(xs)^2 = Σ(x-x̄)²/(n-1)` (0 for
lists of length < 2, a branch the embedded code never reaches). -/
def sampleVariance (xs : List ℚ) : ℚ :=
  if xs.length ≤ 1 then 0
  else
    let m := listMean xs
    (xs.map (fun x => (x - m) ^ 2)).sum / (xs.length - 1)

-- ════════════════════════════════════════════════════════════════════
-- §  fitness/analysis/pace.py
-- ════════════════════════════════════════════════════════════════════

/-- `_KM_PER_MILE = 1.60934` -/
def kmPerMile : ℚ := 1.60934

/-- `minetti_grade_multiplier(grade)`: clamp the grade to [-0.45, 0.45],
evaluate the Minetti quintic and normalise by the flat-ground cost 3.6. -/
def minetti_grade_multiplier (grade : ℚ) : ℚ :=
  let g := max (-0.45) (min 0.45 grade)
  let factor :=
    155.4 * g ^ 5
    - 30.4 * g ^ 4
    - 43.3 * g ^ 3
    + 46.3 * g ^ 2
    + 19.5 * g
    + 3.6
  factor / 3.6

/-- `grade_adjusted_pace(pace, grade) = pace / minetti_grade_multiplier(grade)` -/
def grade_adjusted_pace (pace_s_per_km : ℚ) (grade : ℚ) : ℚ :=
  pace_s_per_km / minetti_grade_multiplier grade

/-- `compute_grade`: `(elev_end - elev_start) / distance`, 0.0 for
non-positive distance. -/
def compute_grade (elevation_start elevation_end distance_meters : ℚ) : ℚ :=
  if distance_meters ≤ 0 then 0
  else (elevation_end - elevation_start) / distance_meters

/-- `pace_from_speed_ms`: `1000/speed`, `None` for non-positive speed. -/
def pace_from_speed_ms (speed_ms : ℚ) : Option ℚ :=
  if speed_ms ≤ 0 then none else some (1000 / speed_ms)

-- ════════════════════════════════════════════════════════════════════
-- §  fitness/analysis/heart_rate.py — zone classifier
-- ════════════════════════════════════════════════════════════════════

/-- `classify_hr_zone(hr, max_hr)`: fractional boundaries 60/70/80/90 % of
max HR; the source iterates over `_ZONE_BOUNDARIES` returning the first
zone whose upper boundary exceeds `hr/max_hr`, else zone 5. -/
def classify_hr_zone (heart_rate : ℤ) (max_hr : ℤ) : ℕ :=
  let pct : ℚ := (heart_rate : ℚ) / (max_hr : ℚ)
  if pct < 0.60 then 1
  else if pct < 0.70 then 2
  else if pct < 0.80 then 3
  else if pct < 0.90 then 4
  else 5

-- ════════════════════════════════════════════════════════════════════
-- Claim C8 — Minetti multiplier positivity and flat-ground identity
-- ════════════════════════════════════════════════════════════════════

/-- The Minetti quintic is strictly positive on the clamp interval. -/
lemma minetti_factor_pos (g : ℚ) (hlo : -0.45 ≤ g) (hhi : g ≤ 0.45) :
    0 < 155.4 * g ^ 5 - 30.4 * g ^ 4 - 43.3 * g ^ 3
        + 46.3 * g ^ 2 + 19.5 * g + 3.6 := by
  rcases le_or_lt 0 g with hg | hg
  · have hg2 : (0:ℚ) ≤ g ^ 2 := sq_nonneg g
    have h3 : g ^ 3 ≤ 0.45 * g ^ 2 := by nlinarith
    have h4 : g ^ 4 ≤ 0.2025 * g ^ 2 := by nlinarith
    have h5 : (0:ℚ) ≤ g ^ 5 := by positivity
    nlinarith
  · obtain ⟨h, rfl⟩ : ∃ x : ℚ, g = -x := ⟨-g, by ring⟩
    have hh0 : 0 < h := by linarith
    have hh45 : h ≤ 0.45 := by linarith
    have hh2 : (0:ℚ) ≤ h ^ 2 := sq_nonneg h
    have hh3 : (0:ℚ) ≤ h ^ 3 := by positivity
    have hh4 : (0:ℚ) ≤ h ^ 4 := by positivity
    have hgap : (0:ℚ) ≤ 0.45 - h := by linarith
    have b5 : h ^ 5 ≤ 0.45 * h ^ 4 := by nlinarith [mul_nonneg hh4 hgap]
    have b4 : h ^ 4 ≤ 0.45 * h ^ 3 := by nlinarith [mul_nonneg hh3 hgap]
    have b3 : h ^ 3 ≤ 0.45 * h ^ 2 := by nlinarith [mul_nonneg hh2 hgap]
    have key : 0 < 45.468175 * h ^ 2 - 19.5 * h + 3.6 := by
      nlinarith [sq_nonneg (90.93635 * h - 19.5)]
    nlinarith [b5, b4, b3, key]

/-- C8: for every grade the Minetti multiplier is strictly positive;
`minetti_grade_multiplier 0 = 1`; consequently `grade_adjusted_pace p 0 = p`
for every positive pace `p`. -/
theorem c8_minetti_positive_and_flat_identity :
    (∀ grade : ℚ, 0 < minetti_grade_multiplier grade) ∧
    minetti_grade_multiplier 0 = 1 ∧
    (∀ p : ℚ, 0 < p → grade_adjusted_pace p 0 = p) := by
  have hpos : ∀ grade : ℚ, 0 < minetti_grade_multiplier grade := by
    intro grade
    unfold minetti_grade_multiplier
    have hlo : -0.45 ≤ max (-0.45) (min 0.45 grade) := le_max_left _ _
    have hhi : max (-0.45) (min 0.45 grade) ≤ 0.45 := by
      apply max_le
      · norm_num
      · exact min_le_left _ _
    have := minetti_factor_pos (max (-0.45) (min 0.45 grade)) hlo hhi
    positivity
  have hone : minetti_grade_multiplier 0 = 1 := by
    unfold minetti_grade_multiplier
    norm_num
  refine ⟨hpos, hone, ?_⟩
  intro p _
  unfold grade_adjusted_pace
  rw [hone, div_one]

/-- Witness for C8 at concrete inputs. -/
theorem c8_witness :
    0 < minetti_grade_multiplier (1/10) ∧ grade_adjusted_pace 450 0 = 450 := by
  refine ⟨c8_minetti_positive_and_flat_identity.1 (1/10), ?_⟩
  exact c8_minetti_positive_and_flat_identity.2.2 450 (by norm_num)

-- ════════════════════════════════════════════════════════════════════
-- §  fitness/garmin/fit_parser.py — sample extraction
-- ════════════════════════════════════════════════════════════════════

/-- One decoded FIT `record` message, as the external decoder's
`record.get_values()` field mapping.  Timestamps are embedded as absolute
seconds (ℚ); `none` models an absent field. -/
structure FitRecord where
  timestamp : Option ℚ := none
  heart_rate : Option ℚ := none
  enhanced_speed : Option ℚ := none
  speed : Option ℚ := none
  enhanced_altitude : Option ℚ := none
  altitude : Option ℚ := none
  cadence : Option ℚ := none
  distance : Option ℚ := none
  position_lat : Option ℤ := none
  position_long : Option ℤ := none
  temperature : Option ℚ := none
deriving Repr, DecidableEq

/-- One datapoint dict produced by `parse_fit_file`. -/
structure Datapoint where
  elapsed_seconds : ℤ
  heart_rate : Option ℤ := none
  speed_ms : Option ℚ := none
  pace_seconds_per_km : Option ℚ := none
  elevation_meters : Option ℚ := none
  cadence_spm : Option ℤ := none
  distance_meters : Option ℚ := none
  lat : Option ℚ := none
  lon : Option ℚ := none
  temperature_c : Option ℚ := none
deriving Repr, DecidableEq

/-- `_SEMICIRCLE_TO_DEGREES = 180 / 2^31` -/
def semicircleToDegrees : ℚ := 180 / 2 ^ 31

/-- Body of the per-record extraction in `parse_fit_file`'s loop, applied
to a record whose timestamp `ts` is present, given the first timestamp.
`values.get("enhanced_speed") or values.get("speed")` is Python `or`:
the enhanced field wins only when present and non-zero (truthy); same for
altitude. -/
def recordToDatapoint (first_timestamp ts : ℚ) (r : FitRecord) : Datapoint :=
  let raw_speed := pyOr r.enhanced_speed r.speed
  { elapsed_seconds := pyInt (ts - first_timestamp)
    heart_rate := r.heart_rate.map pyInt
    speed_ms := raw_speed
    pace_seconds_per_km :=
      match raw_speed with
      | some s => if 0 < s then some (1000 / s) else none
      | none => none
    elevation_meters := pyOr r.enhanced_altitude r.altitude
    cadence_spm := r.cadence.map pyInt
    distance_meters := r.distance
    lat := r.position_lat.map (fun s => (s : ℚ) * semicircleToDegrees)
    lon := r.position_long.map (fun s => (s : ℚ) * semicircleToDegrees)
    temperature_c := r.temperature }

/-- The record loop of `parse_fit_file`: records without a timestamp are
skipped; `first_timestamp` is latched at the first timestamped record. -/
def extractDatapoints : Option ℚ → List FitRecord → List Datapoint
  | _, [] => []
  | fst, r :: rs =>
    match r.timestamp with
    | none => extractDatapoints fst rs
    | some ts =>
      let first := fst.getD ts
      recordToDatapoint first ts r :: extractDatapoints (some first) rs

/-- `parse_fit_file`, from the decoded record stream onward (the
path-existence check and the binary decode are external I/O signalled by
the decoder itself).  The one hard failure raised by the loop itself is
the empty-stream `FitParseError`. -/
def parse_fit_file (records : List FitRecord) : Except String (List Datapoint) :=
  if records.isEmpty then
    Except.error "No record messages found in FIT file"
  else
    Except.ok (extractDatapoints none records)

-- ════════════════════════════════════════════════════════════════════
-- §  fitness/analysis/timeseries.py
-- ════════════════════════════════════════════════════════════════════

/-- `TimeseriesPoint`: the canonical in-memory sample. -/
structure TimeseriesPoint where
  elapsed_seconds : ℤ
  heart_rate : Option ℤ := none
  pace_seconds_per_km : Option ℚ := none
  speed_ms : Option ℚ := none
  elevation_meters : Option ℚ := none
  cadence_spm : Option ℤ := none
  distance_meters : Option ℚ := none
  lat : Option ℚ := none
  lon : Option ℚ := none
  temperature_c : Option ℚ := none
deriving Repr, DecidableEq

/-- `datapoints_to_timeseries`: the structural field-by-field mapping from
parser dicts to `TimeseriesPoint`. -/
def datapoints_to_timeseries (datapoints : List Datapoint) : List TimeseriesPoint :=
  datapoints.map (fun dp =>
    { elapsed_seconds := dp.elapsed_seconds
      heart_rate := dp.heart_rate
      pace_seconds_per_km := dp.pace_seconds_per_km
      speed_ms := dp.speed_ms
      elevation_meters := dp.elevation_meters
      cadence_spm := dp.cadence_spm
      distance_meters := dp.distance_meters
      lat := dp.lat
      lon := dp.lon
      temperature_c := dp.temperature_c })

-- ════════════════════════════════════════════════════════════════════
-- Claim C2 — hard-failure semantics of sample extraction
-- ════════════════════════════════════════════════════════════════════

/-- A decoded record with no timestamp (and no other fields). -/
def c2NoTimestampRecord : FitRecord := {}

/-- A decoded record carrying only a timestamp. -/
def c2TsRecord : FitRecord := { timestamp := some 100 }

/-- C2 counterexample: a non-empty decoded stream with zero timestamped
records does NOT raise — `parse_fit_file` silently returns an empty
datapoint list, while the claim demands its hard-failure error there. -/
theorem c2_counterexample :
    c2NoTimestampRecord.timestamp = none ∧
    parse_fit_file [c2NoTimestampRecord] = Except.ok [] := by
  exact ⟨rfl, rfl⟩

/-- Skipping lemma: the loop emits exactly one datapoint per timestamped
record. -/
lemma extractDatapoints_length (fst : Option ℚ) (recs : List FitRecord) :
    (extractDatapoints fst recs).length
      = (recs.filter (fun r => r.timestamp.isSome)).length := by
  induction recs generalizing fst with
  | nil => rfl
  | cons r rs ih =>
    cases h : r.timestamp with
    | none => simp [extractDatapoints, h, ih]
    | some ts => simp [extractDatapoints, h, ih]

/-- C2 (amended): `parse_fit_file` raises its hard failure exactly when the
decoded stream is empty; a non-empty stream yields one datapoint per
timestamped record (so records lacking a timestamp are skipped, the result
is non-empty iff some record is timestamped, and a stream with zero
timestamped records yields an empty list, not an error). -/
theorem c2_parse_failure_semantics (records : List FitRecord) :
    ((∃ msg, parse_fit_file records = Except.error msg) ↔ records = []) ∧
    (∀ dps, parse_fit_file records = Except.ok dps →
      dps.length = (records.filter (fun r => r.timestamp.isSome)).length) := by
  constructor
  · constructor
    · rintro ⟨msg, hmsg⟩
      by_contra hne
      unfold parse_fit_file at hmsg
      rw [if_neg (by simpa using hne)] at hmsg
      exact Except.noConfusion hmsg
    · rintro rfl
      exact ⟨_, rfl⟩
  · intro dps hok
    unfold parse_fit_file at hok
    by_cases hempty : records.isEmpty
    · rw [if_pos hempty] at hok
      exact Except.noConfusion hok
    · rw [if_neg hempty] at hok
      obtain rfl : extractDatapoints none records = dps := by
        injection hok
      exact extractDatapoints_length none records

/-- Witness for C2 at a concrete one-record stream. -/
theorem c2_witness :
    (extractDatapoints none [c2TsRecord]).length
      = ([c2TsRecord].filter (fun r => r.timestamp.isSome)).length ∧
    ([c2TsRecord].filter (fun r => r.timestamp.isSome)).length = 1 := by
  exact ⟨(c2_parse_failure_semantics [c2TsRecord]).2 _ rfl, by decide⟩

-- ════════════════════════════════════════════════════════════════════
-- Claim C6 — enhanced-field preference
-- ════════════════════════════════════════════════════════════════════

/-- A record where both the enhanced and the legacy field are present but
the enhanced values are 0.0 (falsy in Python). -/
def c6Record : FitRecord :=
  { timestamp := some 0, enhanced_speed := some 0, speed := some 2,
    enhanced_altitude := some 0, altitude := some 5 }

/-- The datapoint `parse_fit_file` produces for `c6Record`. -/
def c6Datapoint : Datapoint := recordToDatapoint 0 0 c6Record

/-- C6 counterexample: with `enhanced_speed = 0.0` and `speed = 2.0` both
present, the extraction uses the LEGACY values (Python `or` treats 0.0 as
falsy), not the enhanced ones the claim mandates; likewise for altitude. -/
theorem c6_counterexample :
    c6Record.enhanced_speed = some 0 ∧ c6Record.speed = some 2 ∧
    c6Record.enhanced_altitude = some 0 ∧ c6Record.altitude = some 5 ∧
    parse_fit_file [c6Record] = Except.ok [c6Datapoint] ∧
    c6Datapoint.speed_ms ≠ c6Record.enhanced_speed ∧
    c6Datapoint.elevation_meters ≠ c6Record.enhanced_altitude := by
  refine ⟨rfl, rfl, rfl, rfl, rfl, ?_, ?_⟩ <;> decide

/-- C6 (amended): the enhanced field is preferred over its legacy
counterpart whenever it is present AND non-zero (Python truthiness); the
pace is then derived from the enhanced speed. -/
theorem c6_enhanced_preferred (first ts : ℚ) (r : FitRecord) (v a : ℚ) :
    (r.enhanced_speed = some v → v ≠ 0 →
      (recordToDatapoint first ts r).speed_ms = some v ∧
      (recordToDatapoint first ts r).pace_seconds_per_km
        = (if 0 < v then some (1000 / v) else none)) ∧
    (r.enhanced_altitude = some a → a ≠ 0 →
      (recordToDatapoint first ts r).elevation_meters = some a) := by
  constructor
  · intro h hne
    constructor <;> simp [recordToDatapoint, pyOr, h, hne]
  · intro h hne
    simp [recordToDatapoint, pyOr, h, hne]

/-- A record with non-zero enhanced fields alongside legacy ones. -/
def c6GoodRecord : FitRecord :=
  { timestamp := some 0, enhanced_speed := some 4, speed := some 9,
    enhanced_altitude := some 12, altitude := some 3 }

/-- Witness for C6 at a concrete record. -/
theorem c6_witness :
    (recordToDatapoint 0 0 c6GoodRecord).speed_ms = some 4 ∧
    (recordToDatapoint 0 0 c6GoodRecord).pace_seconds_per_km
      = (if (0:ℚ) < 4 then some (1000 / 4) else none) ∧
    (recordToDatapoint 0 0 c6GoodRecord).elevation_meters = some 12 := by
  obtain ⟨h1, h2⟩ := c6_enhanced_preferred 0 0 c6GoodRecord 4 12
  exact ⟨(h1 rfl (by norm_num)).1, (h1 rfl (by norm_num)).2,
    h2 rfl (by norm_num)⟩

-- ════════════════════════════════════════════════════════════════════
-- Claim C9 — sample-sequence ordering invariant
-- ════════════════════════════════════════════════════════════════════

/-- A record stream with out-of-order timestamps (10 s then 5 s). -/
def c9LateRecord : FitRecord := { timestamp := some 10 }

/-- The earlier record, decoded second. -/
def c9EarlyRecord : FitRecord := { timestamp := some 5 }

/-- `pyInt` agrees with the identity on integral rationals. -/
lemma pyInt_eq_intCast {q : ℚ} {n : ℤ} (h : q = (n : ℚ)) : pyInt q = n := by
  subst h
  unfold pyInt
  split_ifs with h0
  · exact Int.floor_intCast n
  · exact Int.ceil_intCast n

/-- C9 counterexample: `parse_fit_file` does not sort.  A decoded stream
whose timestamps are out of order yields elapsed times [0, -5], violating
the non-decreasing ordering invariant that the claim asserts for EVERY
input record sequence. -/
theorem c9_counterexample :
    parse_fit_file [c9LateRecord, c9EarlyRecord]
      = Except.ok (extractDatapoints none [c9LateRecord, c9EarlyRecord]) ∧
    ((extractDatapoints none [c9LateRecord, c9EarlyRecord]).map
        (fun dp => dp.elapsed_seconds)) = [0, -5] ∧
    ¬ ((extractDatapoints none [c9LateRecord, c9EarlyRecord]).map
        (fun dp => dp.elapsed_seconds)).Pairwise (· ≤ ·) := by
  have hmap : (extractDatapoints none [c9LateRecord, c9EarlyRecord]).map
      (fun dp => dp.elapsed_seconds)
      = [pyInt ((10:ℚ) - 10), pyInt ((5:ℚ) - 10)] := rfl
  have h1 : pyInt ((10:ℚ) - 10) = 0 := pyInt_eq_intCast (by norm_num)
  have h2 : pyInt ((5:ℚ) - 10) = -5 := pyInt_eq_intCast (by norm_num)
  refine ⟨rfl, ?_, ?_⟩
  · rw [hmap, h1, h2]
  · rw [hmap, h1, h2]
    decide

/-- Truncation toward zero is monotone. -/
lemma pyInt_mono {a b : ℚ} (h : a ≤ b) : pyInt a ≤ pyInt b := by
  unfold pyInt
  split_ifs with ha hb hb
  · exact Int.floor_le_floor h
  · exact absurd (le_trans ha h) hb
  · have h1 : ⌈a⌉ ≤ 0 := by
      rw [Int.ceil_le]
      push_cast
      linarith [lt_of_not_ge ha]
    have h2 : (0:ℤ) ≤ ⌊b⌋ := Int.floor_nonneg.mpr hb
    omega
  · exact Int.ceil_le_ceil h

/-- Elapsed times once the first timestamp is latched: one per timestamped
record, computed by truncation relative to the latched first timestamp. -/
lemma extractDatapoints_some_elapsed (f : ℚ) (recs : List FitRecord) :
    (extractDatapoints (some f) recs).map (fun dp => dp.elapsed_seconds)
      = (recs.filterMap (fun r => r.timestamp)).map (fun ts => pyInt (ts - f)) := by
  induction recs with
  | nil => rfl
  | cons r rs ih =>
    cases h : r.timestamp with
    | none => simp [extractDatapoints, h, ih]
    | some ts => simp [extractDatapoints, h, ih, recordToDatapoint]

/-- If the decoded timestamps are non-decreasing, so are the extracted
elapsed times. -/
lemma extractDatapoints_elapsed_pairwise (recs : List FitRecord)
    (h : (recs.filterMap (fun r => r.timestamp)).Pairwise (· ≤ ·)) :
    ((extractDatapoints none recs).map (fun dp => dp.elapsed_seconds)).Pairwise
      (· ≤ ·) := by
  induction recs with
  | nil => simp [extractDatapoints]
  | cons r rs ih =>
    cases hts : r.timestamp with
    | none =>
      rw [List.filterMap_cons, hts] at h
      simpa [extractDatapoints, hts] using ih h
    | some ts =>
      simp only [List.filterMap_cons, hts] at h
      simp only [extractDatapoints, hts, Option.getD_none, List.map_cons]
      rw [extractDatapoints_some_elapsed]
      have hhead : (recordToDatapoint ts ts r).elapsed_seconds
          = pyInt (ts - ts) := rfl
      rw [hhead]
      rw [show (pyInt (ts - ts) ::
            (rs.filterMap (fun r => r.timestamp)).map (fun t => pyInt (t - ts)))
          = ((ts :: rs.filterMap (fun r => r.timestamp)).map
              (fun t => pyInt (t - ts))) from rfl]
      rw [List.pairwise_map]
      exact h.imp (fun hab => pyInt_mono (by linarith))

/-- The extracted cumulative distances form a sublist of the decoded
records' distance fields (in order). -/
lemma extractDatapoints_dist_sublist (fst : Option ℚ) (recs : List FitRecord) :
    List.Sublist
      ((extractDatapoints fst recs).filterMap (fun dp => dp.distance_meters))
      (recs.filterMap (fun r => r.distance)) := by
  induction recs generalizing fst with
  | nil => simp [extractDatapoints]
  | cons r rs ih =>
    cases hts : r.timestamp with
    | none =>
      rw [List.filterMap_cons]
      cases hd : r.distance with
      | none => simpa [extractDatapoints, hts] using ih fst
      | some d =>
        simp only [extractDatapoints, hts]
        exact (ih fst).cons d
    | some ts =>
      simp only [extractDatapoints, hts]
      rw [List.filterMap_cons, List.filterMap_cons]
      have hdp : (recordToDatapoint (fst.getD ts) ts r).distance_meters
          = r.distance := rfl
      rw [hdp]
      cases hd : r.distance with
      | none => exact ih (some (fst.getD ts))
      | some d => exact (ih (some (fst.getD ts))).cons₂ d

/-- C9 (amended): neither function sorts; both PRESERVE the ordering
invariant.  If the decoded timestamps are non-decreasing then the
extracted elapsed times are non-decreasing, and if the decoded cumulative
distances (where present) are non-decreasing so are the extracted ones;
`datapoints_to_timeseries` is a structural map that leaves both the
elapsed and the distance sequences unchanged. -/
theorem c9_ordering_invariant_preserved :
    (∀ records dps, parse_fit_file records = Except.ok dps →
      (((records.filterMap (fun r => r.timestamp)).Pairwise (· ≤ ·) →
        (dps.map (fun dp => dp.elapsed_seconds)).Pairwise (· ≤ ·)) ∧
       ((records.filterMap (fun r => r.distance)).Pairwise (· ≤ ·) →
        (dps.filterMap (fun dp => dp.distance_meters)).Pairwise (· ≤ ·)))) ∧
    (∀ dps : List Datapoint,
      ((datapoints_to_timeseries dps).map (fun p => p.elapsed_seconds))
        = dps.map (fun dp => dp.elapsed_seconds) ∧
      ((datapoints_to_timeseries dps).filterMap (fun p => p.distance_meters))
        = dps.filterMap (fun dp => dp.distance_meters)) := by
  constructor
  · intro records dps hok
    unfold parse_fit_file at hok
    by_cases hempty : records.isEmpty
    · rw [if_pos hempty] at hok
      exact Except.noConfusion hok
    · rw [if_neg hempty] at hok
      obtain rfl : extractDatapoints none records = dps := by injection hok
      constructor
      · exact extractDatapoints_elapsed_pairwise records
      · intro hdist
        exact hdist.sublist (extractDatapoints_dist_sublist none records)
  · intro dps
    constructor
    · simp [datapoints_to_timeseries]
    · simp [datapoints_to_timeseries, List.filterMap_map]
      rfl

/-- An in-order record (absolute second 5, distance 100 m). -/
def c9SortedA : FitRecord := { timestamp := some 5, distance := some 100 }

/-- An in-order record (absolute second 10, distance 200 m). -/
def c9SortedB : FitRecord := { timestamp := some 10, distance := some 200 }

/-- Witness for C9 on a concrete in-order stream. -/
theorem c9_witness :
    ((extractDatapoints none [c9SortedA, c9SortedB]).map
        (fun dp => dp.elapsed_seconds)).Pairwise (· ≤ ·) ∧
    ((extractDatapoints none [c9SortedA, c9SortedB]).filterMap
        (fun dp => dp.distance_meters)).Pairwise (· ≤ ·) := by
  have h := (c9_ordering_invariant_preserved.1 [c9SortedA, c9SortedB] _ rfl)
  exact ⟨h.1 (by decide), h.2 (by decide)⟩

-- ════════════════════════════════════════════════════════════════════
-- §  fitness/analysis/segments.py
-- ════════════════════════════════════════════════════════════════════

/-- `METERS_PER_MILE = 1609.344` -/
def METERS_PER_MILE : ℚ := 1609.344

/-- `MAX_HR_DEFAULT = 185` -/
def MAX_HR_DEFAULT : ℤ := 185

/-- `WARMUP_COOLDOWN_DISTANCE_M = 1000.0` -/
def WARMUP_COOLDOWN_DISTANCE_M : ℚ := 1000

/-- An `ActivitySplit` row (`models/activity.py`), restricted to the fields
the segment builder reads. -/
structure ActivitySplit where
  split_index : ℕ := 0
  split_type : String
  start_elapsed_seconds : ℤ
  duration_seconds : ℚ
  distance_meters : ℚ
  avg_hr : Option ℚ := none
  avg_pace_seconds_per_km : Option ℚ := none
  wkt_step_type : Option String := none
  target_pace_slow_s_per_km : Option ℚ := none
  target_pace_fast_s_per_km : Option ℚ := none
deriving Repr, DecidableEq

/-- `LapSegment` (HR-zone dict modelled as the list of the five zone
fractions, zones 1–5 in order). -/
structure LapSegment where
  label : String
  split_type : String
  start_elapsed_s : ℤ
  end_elapsed_s : ℤ
  duration_seconds : ℚ
  distance_meters : ℚ
  avg_pace_s_per_km : ℚ
  avg_hr : ℚ
  hr_zone_distribution : List ℚ
  target_pace_slow_s_per_km : Option ℚ := none
  target_pace_fast_s_per_km : Option ℚ := none
deriving Repr, DecidableEq

/-- `LapSegment.is_active`: true only for run/warmup/cooldown laps. -/
def LapSegment.is_active (s : LapSegment) : Bool :=
  s.split_type == "run_segment" || s.split_type == "warmup_segment"
    || s.split_type == "cooldown_segment"

/-- `RunSegment` (per-mile segment). -/
structure RunSegment where
  label : String
  start_elapsed_s : ℤ
  end_elapsed_s : ℤ
  avg_pace_s_per_km : ℚ
  avg_hr : ℚ
  grade_pct : ℚ
  gap_s_per_km : ℚ
  hr_zone_distribution : List ℚ
deriving Repr, DecidableEq

/-- A default `TimeseriesPoint` for the (unreachable) empty-list accesses. -/
def defaultPoint : TimeseriesPoint := { elapsed_seconds := 0 }

/-- `_hr_zone_distribution`: fraction of HR-bearing points per zone,
all-zero when no point carries HR. -/
def hr_zone_distribution (pts : List TimeseriesPoint) (max_hr : ℤ) : List ℚ :=
  let hr_pts := pts.filterMap (fun p => p.heart_rate)
  if hr_pts = [] then [0, 0, 0, 0, 0]
  else
    let count := fun (z : ℕ) =>
      ((hr_pts.countP (fun hr => classify_hr_zone hr max_hr == z) : ℕ) : ℚ)
    let total := count 1 + count 2 + count 3 + count 4 + count 5
    [count 1 / total, count 2 / total, count 3 / total,
     count 4 / total, count 5 / total]

/-- Stable sort of a timeseries by elapsed seconds (Python `sorted`). -/
def sortedByElapsed (pts : List TimeseriesPoint) : List TimeseriesPoint :=
  pts.mergeSort (fun a b => decide (a.elapsed_seconds ≤ b.elapsed_seconds))

/-- `_grade_pct_for_segment`: first/last elevation+distance-bearing points
(after sorting by elapsed time), elevation delta over distance delta as a
percentage; 0 when fewer than two such points or no positive delta. -/
def grade_pct_for_segment (pts : List TimeseriesPoint) : ℚ :=
  let valid := pts.filter
    (fun p => p.elevation_meters.isSome && p.distance_meters.isSome)
  if valid.length < 2 then 0
  else
    let sortedv := sortedByElapsed valid
    let pFirst := sortedv.headD defaultPoint
    let pLast := sortedv.getLastD defaultPoint
    let elev_change :=
      pLast.elevation_meters.getD 0 - pFirst.elevation_meters.getD 0
    let dist_change :=
      pLast.distance_meters.getD 0 - pFirst.distance_meters.getD 0
    if dist_change ≤ 0 then 0
    else (elev_change / dist_change) * 100

/-- `build_lap_segments`' per-split loop, carrying the run/walk counters.
The label cascade is the source's first-match-wins chain; note it reads
only `split_type` and the two heuristic indices (`wkt_step_type` is never
consulted). -/
def buildLapLoop (timeseries : List TimeseriesPoint) (max_hr : ℤ)
    (hw hc : Option ℕ) : ℕ → ℕ → ℕ → List ActivitySplit → List LapSegment
  | _, _, _, [] => []
  | i, run_c, walk_c, sp :: rest =>
    let start_s := sp.start_elapsed_seconds
    let end_s := start_s + pyInt sp.duration_seconds
    let window_pts := timeseries.filter
      (fun p => decide (start_s ≤ p.elapsed_seconds)
        && decide (p.elapsed_seconds < end_s))
    let zones := hr_zone_distribution window_pts max_hr
    let lrw : String × ℕ × ℕ :=
      if sp.split_type = "warmup_segment" then ("Warmup", run_c, walk_c)
      else if sp.split_type = "cooldown_segment" then ("Cooldown", run_c, walk_c)
      else if some i = hw then ("Warmup", run_c, walk_c)
      else if some i = hc then ("Cooldown", run_c, walk_c)
      else if sp.split_type = "walk_segment" then
        ("Walk " ++ toString (walk_c + 1), run_c, walk_c + 1)
      else
        ("Run " ++ toString (run_c + 1), run_c + 1, walk_c)
    { label := lrw.1
      split_type := sp.split_type
      start_elapsed_s := start_s
      end_elapsed_s := end_s
      duration_seconds := sp.duration_seconds
      distance_meters := sp.distance_meters
      avg_pace_s_per_km := sp.avg_pace_seconds_per_km.getD 0
      avg_hr := sp.avg_hr.getD 0
      hr_zone_distribution := zones
      target_pace_slow_s_per_km := sp.target_pace_slow_s_per_km
      target_pace_fast_s_per_km := sp.target_pace_fast_s_per_km }
      :: buildLapLoop timeseries max_hr hw hc (i + 1) lrw.2.1 lrw.2.2 rest

/-- `build_lap_segments`: heuristic warmup/cooldown indices, then the
labelled per-split loop. -/
def build_lap_segments (splits : List ActivitySplit)
    (timeseries : List TimeseriesPoint) (max_hr : ℤ) : List LapSegment :=
  if splits = [] then []
  else
    let n := splits.length
    let heuristic_warmup_idx : Option ℕ :=
      match splits.head? with
      | some sp0 =>
        if sp0.split_type = "run_segment"
            ∧ sp0.distance_meters < WARMUP_COOLDOWN_DISTANCE_M
        then some 0 else none
      | none => none
    let heuristic_cooldown_idx : Option ℕ :=
      match splits.getLast? with
      | some spl =>
        if 1 < n
            ∧ (spl.split_type = "run_segment" ∨ spl.split_type = "walk_segment")
            ∧ spl.distance_meters < WARMUP_COOLDOWN_DISTANCE_M
            ∧ some (n - 1) ≠ heuristic_warmup_idx
        then some (n - 1) else none
      | none => none
    buildLapLoop timeseries max_hr heuristic_warmup_idx heuristic_cooldown_idx
      0 0 0 splits

/-- The points points of the sorted timeseries whose cumulative distance
falls in mile bin `i`, i.e. `[i·W, (i+1)·W)`. -/
def milePoints (pts : List TimeseriesPoint) (i : ℕ) : List TimeseriesPoint :=
  pts.filter (fun p =>
    match p.distance_meters with
    | some d => decide ((i : ℚ) * METERS_PER_MILE ≤ d)
        && decide (d < ((i : ℚ) + 1) * METERS_PER_MILE)
    | none => false)

/-- Coverage of mile bin `i`: the maximum observed distance in the bin
minus the bin start. -/
def mileCoverage (pts : List TimeseriesPoint) (i : ℕ) : ℚ :=
  listMax ((milePoints pts i).filterMap (fun p => p.distance_meters))
    - (i : ℚ) * METERS_PER_MILE

/-- The per-mile statistics block of `build_mile_segments`' loop body. -/
def mileSegment (pts : List TimeseriesPoint) (max_hr : ℤ) (mile_index : ℕ) :
    RunSegment :=
  let mile_pts := sortedByElapsed (milePoints pts mile_index)
  let start_elapsed := (mile_pts.headD defaultPoint).elapsed_seconds
  let end_elapsed := (mile_pts.getLastD defaultPoint).elapsed_seconds
  let pace_pts := mile_pts.filter (fun p =>
    match p.pace_seconds_per_km with
    | some v => decide (0 < v)
    | none => false)
  let avg_pace :=
    if pace_pts ≠ [] then
      listMean (pace_pts.filterMap (fun p => p.pace_seconds_per_km))
    else
      let elapsed_s := end_elapsed - start_elapsed
      if 0 < elapsed_s then ((elapsed_s : ℚ) / METERS_PER_MILE) * 1000 else 0
  let hr_pts := mile_pts.filterMap (fun p => p.heart_rate)
  let avg_hr := if hr_pts ≠ [] then listMean (hr_pts.map (fun h => (h : ℚ))) else 0
  let grade_pct := grade_pct_for_segment mile_pts
  let grade_decimal := grade_pct / 100
  let gap := if 0 < avg_pace then grade_adjusted_pace avg_pace grade_decimal
    else avg_pace
  { label := "Mile " ++ toString (mile_index + 1)
    start_elapsed_s := start_elapsed
    end_elapsed_s := end_elapsed
    avg_pace_s_per_km := pyRound avg_pace 2
    avg_hr := pyRound avg_hr 1
    grade_pct := pyRound grade_pct 2
    gap_s_per_km := pyRound gap 2
    hr_zone_distribution := hr_zone_distribution mile_pts max_hr }

/-- The `while True` loop of `build_mile_segments`, with a fuel bound (the
source loop always breaks once the bin start passes the total distance;
the caller supplies enough fuel for that).  Break order follows the
source: no data at all in the bin band, empty bin, then the 95 % coverage
test. -/
def mileLoop (pts : List TimeseriesPoint) (total_distance : ℚ) (max_hr : ℤ) :
    ℕ → ℕ → List RunSegment
  | 0, _ => []
  | Nat.succ fuel, mile_index =>
    if total_distance + 10 ≤ (mile_index : ℚ) * METERS_PER_MILE then []
    else if milePoints pts mile_index = [] then []
    else if mileCoverage pts mile_index < METERS_PER_MILE * 0.95 then []
    else
      mileSegment pts max_hr mile_index
        :: mileLoop pts total_distance max_hr fuel (mile_index + 1)

/-- The points carrying a cumulative distance. -/
def distPoints (pts : List TimeseriesPoint) : List TimeseriesPoint :=
  pts.filter (fun p => p.distance_meters.isSome)

/-- The maximum cumulative distance of a (sorted) timeseries. -/
def totalDistanceOf (pts : List TimeseriesPoint) : ℚ :=
  listMax ((distPoints pts).filterMap (fun p => p.distance_meters))

/-- `build_mile_segments`: defensive sort, total-distance gate, then the
mile loop from bin 0. -/
def build_mile_segments (points : List TimeseriesPoint) (max_hr : ℤ) :
    List RunSegment :=
  if points = [] then []
  else
    let pts := sortedByElapsed points
    if distPoints pts = [] then []
    else
      let total_distance := totalDistanceOf pts
      if total_distance < METERS_PER_MILE then []
      else
        mileLoop pts total_distance max_hr
          ((⌈total_distance / METERS_PER_MILE⌉).toNat + 2) 0

-- ════════════════════════════════════════════════════════════════════
-- Claim C4 — lap labelling (code contradicts its own tests)
-- ════════════════════════════════════════════════════════════════════

/-- The repository test input (`test_multiple_recovery_segments_labeled_
sequentially`): four run-type laps ≥ 1 km, the 2nd and 4th carrying
`wkt_step_type = "recovery"`. -/
def c4FailingSplits : List ActivitySplit :=
  [ { split_index := 0, split_type := "run_segment",
      start_elapsed_seconds := 0, duration_seconds := 300,
      distance_meters := 1200, avg_hr := some 165,
      avg_pace_seconds_per_km := some 250 },
    { split_index := 1, split_type := "run_segment",
      start_elapsed_seconds := 300, duration_seconds := 180,
      distance_meters := 1200, avg_hr := some 120,
      avg_pace_seconds_per_km := some 450, wkt_step_type := some "recovery" },
    { split_index := 2, split_type := "run_segment",
      start_elapsed_seconds := 480, duration_seconds := 300,
      distance_meters := 1200, avg_hr := some 168,
      avg_pace_seconds_per_km := some 250 },
    { split_index := 3, split_type := "run_segment",
      start_elapsed_seconds := 780, duration_seconds := 180,
      distance_meters := 1200, avg_hr := some 118,
      avg_pace_seconds_per_km := some 450, wkt_step_type := some "recovery" } ]

/-- C4: evaluating the code at the failing input.  `build_lap_segments`
never consults `wkt_step_type`, so the recovery-step laps are labelled
"Run 2" / "Run 4" — the repository's own test asserts
["Run 1", "Recovery 1", "Run 2", "Recovery 2"] here, and the spec's rule
(4) agrees with the test. -/
theorem c4_recovery_laps_labelled_run :
    (build_lap_segments c4FailingSplits [] MAX_HR_DEFAULT).map
      (fun s => s.label) = ["Run 1", "Run 2", "Run 3", "Run 4"] ∧
    c4FailingSplits.map (fun sp => sp.wkt_step_type)
      = [none, some "recovery", none, some "recovery"] := by
  constructor <;> decide

-- ════════════════════════════════════════════════════════════════════
-- Claim C3 — 95 % mile-coverage gate
-- ════════════════════════════════════════════════════════════════════

/-- Mile bin `i` passes the segmentation test: it holds samples and their
maximum cumulative distance covers at least 95 % of the bin width. -/
def mileCovered (pts : List TimeseriesPoint) (i : ℕ) : Prop :=
  milePoints pts i ≠ [] ∧ METERS_PER_MILE * 0.95 ≤ mileCoverage pts i

/-- Loop invariant for `mileLoop`: every emitted bin passes the coverage
test, and once a bin fails nothing at or beyond it is emitted. -/
lemma mileLoop_spec (pts : List TimeseriesPoint) (total : ℚ) (mh : ℤ) :
    ∀ (fuel i : ℕ),
      (∀ j, j < (mileLoop pts total mh fuel i).length →
        mileCovered pts (i + j)) ∧
      (∀ j, ¬ mileCovered pts (i + j) →
        (mileLoop pts total mh fuel i).length ≤ j) := by
  intro fuel
  induction fuel with
  | zero =>
    intro i
    refine ⟨?_, ?_⟩
    · intro j hj
      simp [mileLoop] at hj
    · intro j _
      simp [mileLoop]
  | succ fuel ih =>
    intro i
    by_cases c1 : total + 10 ≤ (i : ℚ) * METERS_PER_MILE
    · refine ⟨?_, ?_⟩
      · intro j hj
        simp [mileLoop, c1] at hj
      · intro j _
        simp [mileLoop, c1]
    · by_cases c2 : milePoints pts i = []
      · refine ⟨?_, ?_⟩
        · intro j hj
          simp [mileLoop, c1, c2] at hj
        · intro j _
          simp [mileLoop, c1, c2]
      · by_cases c3 : mileCoverage pts i < METERS_PER_MILE * 0.95
        · refine ⟨?_, ?_⟩
          · intro j hj
            simp [mileLoop, c1, c2, c3] at hj
          · intro j _
            simp [mileLoop, c1, c2, c3]
        · have hcov : mileCovered pts i := ⟨c2, le_of_not_lt c3⟩
          have hlen : mileLoop pts total mh (fuel + 1) i
              = mileSegment pts mh i :: mileLoop pts total mh fuel (i + 1) := by
            simp [mileLoop, c1, c2, c3]
          refine ⟨?_, ?_⟩
          · intro j hj
            rw [hlen] at hj
            cases j with
            | zero => simpa using hcov
            | succ j =>
              have hrec := (ih (i + 1)).1 j
                (by simpa using Nat.lt_of_succ_lt_succ hj)
              have heq : (i + 1) + j = i + (j + 1) := by omega
              rw [heq] at hrec
              exact hrec
          · intro j hnc
            cases j with
            | zero =>
              exact absurd hcov (by simpa using hnc)
            | succ j =>
              rw [hlen]
              have heq : i + (j + 1) = (i + 1) + j := by omega
              rw [heq] at hnc
              have hrec := (ih (i + 1)).2 j hnc
              simpa using Nat.succ_le_succ hrec

/-- C3: a mile bin is emitted only if it passes the 95 %-coverage test;
the first failing bin stops segmentation (so all trailing partial miles
are dropped); and a timeseries whose total cumulative distance is under
one mile yields no segments at all. -/
theorem c3_mile_segments_coverage (points : List TimeseriesPoint) :
    (∀ i, i < (build_mile_segments points MAX_HR_DEFAULT).length →
      mileCovered (sortedByElapsed points) i) ∧
    (∀ j, ¬ mileCovered (sortedByElapsed points) j →
      (build_mile_segments points MAX_HR_DEFAULT).length ≤ j) ∧
    (totalDistanceOf (sortedByElapsed points) < METERS_PER_MILE →
      build_mile_segments points MAX_HR_DEFAULT = []) := by
  by_cases h0 : points = []
  · subst h0
    refine ⟨?_, ?_, ?_⟩
    · intro i hi
      simp [build_mile_segments] at hi
    · intro j _
      simp [build_mile_segments]
    · intro _
      simp [build_mile_segments]
  · by_cases h1 : distPoints (sortedByElapsed points) = []
    · have hb : build_mile_segments points MAX_HR_DEFAULT = [] := by
        simp [build_mile_segments, h0, h1]
      refine ⟨?_, ?_, fun _ => hb⟩
      · intro i hi
        rw [hb] at hi
        simp at hi
      · intro j _
        rw [hb]
        simp
    · by_cases h2 : totalDistanceOf (sortedByElapsed points) < METERS_PER_MILE
      · have hb : build_mile_segments points MAX_HR_DEFAULT = [] := by
          simp [build_mile_segments, h0, h1, h2]
        refine ⟨?_, ?_, fun _ => hb⟩
        · intro i hi
          rw [hb] at hi
          simp at hi
        · intro j _
          rw [hb]
          simp
      · have hb : build_mile_segments points MAX_HR_DEFAULT
            = mileLoop (sortedByElapsed points)
                (totalDistanceOf (sortedByElapsed points)) MAX_HR_DEFAULT
                ((⌈totalDistanceOf (sortedByElapsed points)
                    / METERS_PER_MILE⌉).toNat + 2) 0 := by
          simp [build_mile_segments, h0, h1, h2]
        refine ⟨?_, ?_, fun hlt => absurd hlt h2⟩
        · intro i hi
          rw [hb] at hi
          have hrec := (mileLoop_spec (sortedByElapsed points)
            (totalDistanceOf (sortedByElapsed points)) MAX_HR_DEFAULT
            ((⌈totalDistanceOf (sortedByElapsed points)
                / METERS_PER_MILE⌉).toNat + 2) 0).1 i hi
          simpa using hrec
        · intro j hj
          rw [hb]
          exact (mileLoop_spec (sortedByElapsed points)
            (totalDistanceOf (sortedByElapsed points)) MAX_HR_DEFAULT
            ((⌈totalDistanceOf (sortedByElapsed points)
                / METERS_PER_MILE⌉).toNat + 2) 0).2 j (by simpa using hj)

/-- A lone sample 100 m into the run. -/
def c3Point : TimeseriesPoint :=
  { elapsed_seconds := 0, distance_meters := some 100 }

/-- Witness for C3: a sub-mile timeseries yields zero mile segments. -/
theorem c3_witness :
    totalDistanceOf (sortedByElapsed [c3Point]) < METERS_PER_MILE ∧
    build_mile_segments [c3Point] MAX_HR_DEFAULT = [] := by
  have hlt : totalDistanceOf (sortedByElapsed [c3Point]) < METERS_PER_MILE := by
    rw [show sortedByElapsed [c3Point] = [c3Point] by
      simp [sortedByElapsed]]
    simp [totalDistanceOf, distPoints, c3Point, listMax]
    norm_num [METERS_PER_MILE]
  exact ⟨hlt, (c3_mile_segments_coverage [c3Point]).2.2 hlt⟩

-- ════════════════════════════════════════════════════════════════════
-- §  fitness/analysis/heart_rate.py — cardiac drift detection
-- ════════════════════════════════════════════════════════════════════

/-- `CardiacDriftEvent`. -/
structure CardiacDriftEvent where
  onset_elapsed_seconds : ℤ
  total_hr_rise_bpm : ℚ
  pace_at_onset_s_per_km : ℚ
deriving Repr, DecidableEq

/-- One scored window of `detect_cardiac_drift` (the source dict keeps
`pace_cv = stdev/mean`; we keep the sample variance instead, and the
steadiness test below compares against the squared threshold, which is
equivalent since both sides of the source's comparison are non-negative
and the window's mean pace is positive). -/
structure DriftWindow where
  start_t : ℤ
  mean_hr : ℚ
  mean_pace : ℚ
  pace_var : ℚ
deriving Repr, DecidableEq

/-- A default window for (unreachable) empty-list head accesses. -/
def defaultDriftWindow : DriftWindow :=
  { start_t := 0, mean_hr := 0, mean_pace := 0, pace_var := 0 }

/-- Post-warmup points carrying HR and a positive pace. -/
def postWarmupPoints (points : List TimeseriesPoint) (warmup_seconds : ℤ) :
    List TimeseriesPoint :=
  points.filter (fun p =>
    decide (warmup_seconds ≤ p.elapsed_seconds)
    && p.heart_rate.isSome
    && (match p.pace_seconds_per_km with
        | some v => decide (0 < v)
        | none => false))

/-- Score the window starting at `t` (windows need at least 3 samples; HR
and pace are non-`None` on every post-warmup point, so the `getD 0`
defaults are never taken). -/
def driftWindowAt (post_warmup : List TimeseriesPoint)
    (t window_seconds : ℤ) : Option DriftWindow :=
  let window_points := post_warmup.filter (fun p =>
    decide (t ≤ p.elapsed_seconds) && decide (p.elapsed_seconds < t + window_seconds))
  if 3 ≤ window_points.length then
    let hrs := window_points.map (fun p => ((p.heart_rate.getD 0 : ℤ) : ℚ))
    let paces := window_points.map (fun p => p.pace_seconds_per_km.getD 0)
    some { start_t := t
           mean_hr := listMean hrs
           mean_pace := listMean paces
           pace_var := if 1 < paces.length then sampleVariance paces else 0 }
  else none

/-- The `while t + window_seconds <= end_time` loop over consecutive
non-overlapping windows: for a positive window length it runs exactly
`((end_time - start_time) / window_seconds).toNat` times with
`t = start_time + k · window_seconds`. -/
def driftWindows (post_warmup : List TimeseriesPoint) (window_seconds : ℤ) :
    List DriftWindow :=
  match post_warmup with
  | [] => []
  | p0 :: _ =>
    let start_time := p0.elapsed_seconds
    let end_time := (post_warmup.getLastD defaultPoint).elapsed_seconds
    (List.range ((end_time - start_time) / window_seconds).toNat).filterMap
      (fun k => driftWindowAt post_warmup
        (start_time + (k : ℤ) * window_seconds) window_seconds)

/-- The steadiness filter `pace_cv < threshold`, decided in squared form. -/
def isSteady (threshold : ℚ) (w : DriftWindow) : Bool :=
  decide (w.pace_var < threshold ^ 2 * w.mean_pace ^ 2)

/-- OLS numerator `Σ (x-x̄)(y-ȳ)` over window index / mean HR. -/
def driftNum (steady : List DriftWindow) : ℚ :=
  let xs := (List.range steady.length).map (fun (k : ℕ) => (k : ℚ))
  let ys := steady.map (fun w => w.mean_hr)
  let x_mean := listMean xs
  let y_mean := listMean ys
  ((xs.zip ys).map (fun q => (q.1 - x_mean) * (q.2 - y_mean))).sum

/-- OLS denominator `Σ (x-x̄)²` over the window indices `0..n-1`. -/
def driftDen (n : ℕ) : ℚ :=
  let xs := (List.range n).map (fun (k : ℕ) => (k : ℚ))
  let x_mean := listMean xs
  (xs.map (fun x => (x - x_mean) ^ 2)).sum

/-- `detect_cardiac_drift`.  (`max_hr` is in the source signature but
never read by the body.)  The final `[]` match arm mirrors the fact that
the source would index `steady[0]` there; it is unreachable whenever
`min_steady_windows ≥ 1`. -/
def detect_cardiac_drift (points : List TimeseriesPoint) (max_hr : ℤ)
    (warmup_minutes window_minutes : ℤ)
    (pace_stability_threshold drift_threshold_bpm : ℚ)
    (min_steady_windows : ℕ) : Option CardiacDriftEvent :=
  let warmup_seconds := warmup_minutes * 60
  let window_seconds := window_minutes * 60
  let post_warmup := postWarmupPoints points warmup_seconds
  if post_warmup = [] then none
  else
    let steady := (driftWindows post_warmup window_seconds).filter
      (isSteady pace_stability_threshold)
    if steady.length < min_steady_windows then none
    else
      let den := driftDen steady.length
      if den = 0 then none
      else
        let slope := driftNum steady / den
        let predicted_rise := slope * ((steady.length : ℚ) - 1)
        if predicted_rise < drift_threshold_bpm then none
        else
          match steady with
          | [] => none
          | w0 :: _ => some
            { onset_elapsed_seconds := w0.start_t
              total_hr_rise_bpm := pyRound predicted_rise 1
              pace_at_onset_s_per_km := w0.mean_pace }

-- ════════════════════════════════════════════════════════════════════
-- Claim C5 — cardiac-drift detection semantics (default tunables)
-- ════════════════════════════════════════════════════════════════════

/-- The steady windows under the default tunables (15 min warmup,
5 min windows, 10 % CV ceiling). -/
def steadyDefault (points : List TimeseriesPoint) : List DriftWindow :=
  (driftWindows (postWarmupPoints points (15 * 60)) (5 * 60)).filter
    (isSteady (1/10))

/-- `Σ (x - m)²` over `0..n-1` is positive for `n ≥ 2`, whatever `m`:
the term at index 0 or at index 1 is at least 1/4. -/
lemma sum_sq_dev_range_pos (m : ℚ) {n : ℕ} (hn : 2 ≤ n) :
    0 < ((List.range n).map (fun (k : ℕ) => ((k : ℚ) - m) ^ 2)).sum := by
  have hnonneg : ∀ x ∈ (List.range n).map (fun (k : ℕ) => ((k : ℚ) - m) ^ 2),
      0 ≤ x := by
    intro x hx
    simp only [List.mem_map] at hx
    obtain ⟨a, -, rfl⟩ := hx
    positivity
  rcases le_or_lt m (1/2) with hm | hm
  · have hmem : (((1:ℕ) : ℚ) - m) ^ 2
        ∈ (List.range n).map (fun (k : ℕ) => ((k : ℚ) - m) ^ 2) :=
      List.mem_map.mpr ⟨1, List.mem_range.mpr (show (1:ℕ) < n by omega), rfl⟩
    have hle := List.single_le_sum hnonneg _ hmem
    push_cast at hle
    nlinarith [mul_nonneg (show (0:ℚ) ≤ 1/2 - m by linarith)
      (show (0:ℚ) ≤ 3/2 - m by linarith)]
  · have hmem : (((0:ℕ) : ℚ) - m) ^ 2
        ∈ (List.range n).map (fun (k : ℕ) => ((k : ℚ) - m) ^ 2) :=
      List.mem_map.mpr ⟨0, List.mem_range.mpr (show (0:ℕ) < n by omega), rfl⟩
    have hle := List.single_le_sum hnonneg _ hmem
    push_cast at hle
    nlinarith [mul_pos (show (0:ℚ) < m - 1/2 by linarith)
      (show (0:ℚ) < m + 1/2 by linarith)]

/-- The OLS denominator is positive once there are at least 2 windows. -/
lemma driftDen_pos {n : ℕ} (hn : 2 ≤ n) : 0 < driftDen n := by
  unfold driftDen
  simp only [List.map_map]
  exact sum_sq_dev_range_pos _ hn

/-- C5: with the default tunables, `detect_cardiac_drift` reports nothing
when fewer than 4 windows pass the pace-stability filter; otherwise it
reports an event iff the OLS rise projection `slope × (count − 1)` over
the steady windows reaches 8 bpm, the event carrying the first steady
window's start time, the rounded projected rise, and the first steady
window's mean pace. -/
theorem c5_cardiac_drift_detection (points : List TimeseriesPoint) :
    ((steadyDefault points).length < 4 →
      detect_cardiac_drift points 185 15 5 (1/10) 8 4 = none) ∧
    (4 ≤ (steadyDefault points).length →
      detect_cardiac_drift points 185 15 5 (1/10) 8 4
        = (if driftNum (steadyDefault points)
              / driftDen (steadyDefault points).length
              * (((steadyDefault points).length : ℚ) - 1) < 8
           then none
           else some
             { onset_elapsed_seconds :=
                 ((steadyDefault points).headD defaultDriftWindow).start_t
               total_hr_rise_bpm := pyRound
                 (driftNum (steadyDefault points)
                   / driftDen (steadyDefault points).length
                   * (((steadyDefault points).length : ℚ) - 1)) 1
               pace_at_onset_s_per_km :=
                 ((steadyDefault points).headD defaultDriftWindow).mean_pace })) := by
  have hSdef : (driftWindows (postWarmupPoints points (15 * 60)) (5 * 60)).filter
      (isSteady (1/10)) = steadyDefault points := rfl
  constructor
  · intro hlt
    simp only [detect_cardiac_drift]
    by_cases hpw : postWarmupPoints points (15 * 60) = []
    · rw [if_pos hpw]
    · rw [if_neg hpw, hSdef, if_pos hlt]
  · intro hge
    have hS : steadyDefault points ≠ [] := by
      intro h
      rw [h] at hge
      simp at hge
    have hpw : postWarmupPoints points (15 * 60) ≠ [] := by
      intro h
      apply hS
      rw [← hSdef, h]
      rfl
    simp only [detect_cardiac_drift]
    rw [if_neg hpw, hSdef, if_neg (not_lt.mpr hge)]
    have hden : driftDen (steadyDefault points).length ≠ 0 :=
      ne_of_gt (driftDen_pos (by omega))
    rw [if_neg hden]
    obtain ⟨w0, rest, hcons⟩ :
        ∃ w0 rest, steadyDefault points = w0 :: rest := by
      cases h : steadyDefault points with
      | nil => exact absurd h hS
      | cons a l => exact ⟨a, l, rfl⟩
    rw [hcons]
    simp

/-- Witness for C5: the empty timeseries has no steady windows. -/
theorem c5_witness :
    detect_cardiac_drift [] 185 15 5 (1/10) 8 4 = none :=
  (c5_cardiac_drift_detection []).1 (by decide)

-- ════════════════════════════════════════════════════════════════════
-- §  fitness/analysis/bonk.py
-- ════════════════════════════════════════════════════════════════════

/-- `BonkEvent`. -/
structure BonkEvent where
  elapsed_seconds_onset : ℤ
  pre_bonk_pace_s_per_km : ℚ
  bonk_pace_s_per_km : ℚ
  pace_drop_pct : ℚ
  pre_bonk_hr : ℚ
  peak_hr : ℚ
  recovered : Bool
  elapsed_seconds_end : Option ℤ := none
deriving Repr, DecidableEq

/-- `_rolling_median_pace`: median pace over `[elapsed−w, elapsed)`
(`before = true`) or `[elapsed, elapsed+w)`, over points with a positive
pace; `None` when fewer than 3 such points. -/
def rolling_median_pace (points : List TimeseriesPoint)
    (elapsed window_seconds : ℤ) (before : Bool) : Option ℚ :=
  let window_pts := points.filter (fun p =>
    (if before then
      decide (elapsed - window_seconds ≤ p.elapsed_seconds)
        && decide (p.elapsed_seconds < elapsed)
     else
      decide (elapsed ≤ p.elapsed_seconds)
        && decide (p.elapsed_seconds < elapsed + window_seconds))
    && (match p.pace_seconds_per_km with
        | some v => decide (0 < v)
        | none => false))
  if window_pts.length < 3 then none
  else some (listMedian (window_pts.map (fun p => p.pace_seconds_per_km.getD 0)))

/-- `_mean_hr_window`: mean HR over the window; `None` when empty. -/
def mean_hr_window (points : List TimeseriesPoint)
    (elapsed window_seconds : ℤ) (before : Bool) : Option ℚ :=
  let window_pts := points.filter (fun p =>
    (if before then
      decide (elapsed - window_seconds ≤ p.elapsed_seconds)
        && decide (p.elapsed_seconds < elapsed)
     else
      decide (elapsed ≤ p.elapsed_seconds)
        && decide (p.elapsed_seconds < elapsed + window_seconds))
    && p.heart_rate.isSome)
  if window_pts = [] then none
  else some (listMean (window_pts.map (fun p => ((p.heart_rate.getD 0 : ℤ) : ℚ))))

/-- `_elevation_grade_around`: forward-looking grade estimate over
`[elapsed, elapsed + 2·w]` from the first/last elevation+distance-bearing
points; 0.0 on insufficient data or non-positive distance delta. -/
def elevation_grade_around (points : List TimeseriesPoint)
    (elapsed : ℤ) (window_seconds : ℤ) : ℚ :=
  let window_pts := points.filter (fun p =>
    decide (elapsed ≤ p.elapsed_seconds)
      && decide (p.elapsed_seconds ≤ elapsed + 2 * window_seconds)
      && p.elevation_meters.isSome && p.distance_meters.isSome)
  if window_pts.length < 2 then 0
  else
    let sortedw := sortedByElapsed window_pts
    let elev_change := (sortedw.getLastD defaultPoint).elevation_meters.getD 0
      - (sortedw.headD defaultPoint).elevation_meters.getD 0
    let dist_change := (sortedw.getLastD defaultPoint).distance_meters.getD 0
      - (sortedw.headD defaultPoint).distance_meters.getD 0
    if dist_change ≤ 0 then 0
    else elev_change / dist_change

/-- A raw candidate surviving the pace-drop, HR-spike and hill checks. -/
structure RawBonkCandidate where
  t : ℤ
  pre_pace : ℚ
  post_pace : ℚ
  pace_drop_pct : ℚ
  pre_hr : ℚ
  peak_hr : ℚ
deriving Repr, DecidableEq

/-- The loop body of `detect_bonk` at one candidate time `t` (the chain of
`continue`s realised as `Option`). -/
def bonkCandidateAt (points : List TimeseriesPoint)
    (pace_drop_threshold hr_spike_threshold : ℚ)
    (pre_window_seconds post_window_seconds : ℤ)
    (hill_grade_threshold : ℚ) (t : ℤ) : Option RawBonkCandidate :=
  match rolling_median_pace points t pre_window_seconds true,
        rolling_median_pace points t post_window_seconds false with
  | some pre_pace, some post_pace =>
    let pace_drop := (post_pace - pre_pace) / pre_pace
    if pace_drop < pace_drop_threshold then none
    else
      match mean_hr_window points t 60 true, mean_hr_window points t 60 false with
      | some pre_hr, some post_hr =>
        if post_hr - pre_hr < hr_spike_threshold then none
        else
          let grade := elevation_grade_around points t 60
          if hill_grade_threshold ≤ |grade| then none
          else some { t := t, pre_pace := pre_pace, post_pace := post_pace,
                      pace_drop_pct := pace_drop, pre_hr := pre_hr,
                      peak_hr := post_hr }
      | _, _ => none
  | _, _ => none

/-- Candidate times: elapsed seconds of points past the warmup cutoff,
kept only at multiples of 15 s. -/
def bonkCandidateTimes (points : List TimeseriesPoint)
    (min_elapsed_seconds : ℤ) : List ℤ :=
  ((points.filter (fun p => decide (min_elapsed_seconds ≤ p.elapsed_seconds))).map
    (fun p => p.elapsed_seconds)).filter (fun t => decide (t % 15 = 0))

/-- The merge loop over raw candidates in list order: a candidate within
the merge window of the current cluster representative replaces it when
its pace drop is strictly larger; a gap beyond the window emits the
representative and starts a new cluster. -/
def mergeBonkCandidates (merge_window_seconds : ℤ)
    (current : RawBonkCandidate) :
    List RawBonkCandidate → List RawBonkCandidate
  | [] => [current]
  | c :: rest =>
    if c.t - current.t ≤ merge_window_seconds then
      mergeBonkCandidates merge_window_seconds
        (if current.pace_drop_pct < c.pace_drop_pct then c else current) rest
    else
      current :: mergeBonkCandidates merge_window_seconds c rest

/-- Recovery assessment and `BonkEvent` construction for one merged
cluster. -/
def bonkEventOf (points : List TimeseriesPoint)
    (pre_window_seconds post_window_seconds recovery_window_seconds : ℤ)
    (recovery_threshold : ℚ) (c : RawBonkCandidate) : BonkEvent :=
  let onset := c.t
  let recovery_start := onset + post_window_seconds + recovery_window_seconds
  match rolling_median_pace points recovery_start pre_window_seconds false with
  | some recovery_pace =>
    let recovered := decide (recovery_pace ≤ c.pre_pace * (1 + recovery_threshold))
    { elapsed_seconds_onset := onset
      pre_bonk_pace_s_per_km := c.pre_pace
      bonk_pace_s_per_km := c.post_pace
      pace_drop_pct := pyRound c.pace_drop_pct 3
      pre_bonk_hr := pyRound c.pre_hr 1
      peak_hr := pyRound c.peak_hr 1
      recovered := recovered
      elapsed_seconds_end := if recovered then some recovery_start else none }
  | none =>
    { elapsed_seconds_onset := onset
      pre_bonk_pace_s_per_km := c.pre_pace
      bonk_pace_s_per_km := c.post_pace
      pace_drop_pct := pyRound c.pace_drop_pct 3
      pre_bonk_hr := pyRound c.pre_hr 1
      peak_hr := pyRound c.peak_hr 1
      recovered := false
      elapsed_seconds_end := none }

/-- `detect_bonk`. -/
def detect_bonk (points : List TimeseriesPoint)
    (pace_drop_threshold hr_spike_threshold : ℚ)
    (pre_window_seconds post_window_seconds recovery_window_seconds : ℤ)
    (recovery_threshold hill_grade_threshold : ℚ)
    (min_elapsed_seconds merge_window_seconds : ℤ) : List BonkEvent :=
  if points = [] then []
  else
    let candidate_times := bonkCandidateTimes points min_elapsed_seconds
    let raw_candidates := candidate_times.filterMap
      (bonkCandidateAt points pace_drop_threshold hr_spike_threshold
        pre_window_seconds post_window_seconds hill_grade_threshold)
    match raw_candidates with
    | [] => []
    | c0 :: rest =>
      (mergeBonkCandidates merge_window_seconds c0 rest).map
        (bonkEventOf points pre_window_seconds post_window_seconds
          recovery_window_seconds recovery_threshold)

/-- `detect_bonk` at its module defaults (20 % drop, 8 bpm spike, 180 s
pre/post windows, 480 s recovery window, 15 % recovery threshold, 5 %
hill grade, 600 s warmup, 120 s merge window). -/
def detect_bonk_default (points : List TimeseriesPoint) : List BonkEvent :=
  detect_bonk points (2/10) 8 180 180 480 (15/100) (5/100) 600 120

/-- Modelled from the spec: `detect_bonk_per_segment` is imported by the
repository's tests from `fitness.analysis.bonk` but the function itself
is absent from `src/fitness/analysis/bonk.py`.  Per §4.7 of the spec the
segment-aware entry point "first filters the timeseries down to samples
whose elapsed time falls inside an *active* lap segment (§4.5), using
only those samples for everything below"; lap windows are half-open
`[start, end)` per the data model, and `LapSegment.is_active` is the
eligibility predicate. -/
def detect_bonk_per_segment (points : List TimeseriesPoint)
    (segments : List LapSegment) : List BonkEvent :=
  detect_bonk_default (points.filter (fun p => segments.any (fun s =>
    s.is_active && decide (s.start_elapsed_s ≤ p.elapsed_seconds)
      && decide (p.elapsed_seconds < s.end_elapsed_s))))

-- ════════════════════════════════════════════════════════════════════
-- Claim C7 — warmup cutoff: no events before 600 s
-- ════════════════════════════════════════════════════════════════════

/-- C7: a timeseries whose samples all lie before the warmup cutoff
(600 s) produces no bonk events (and the empty timeseries likewise);
the function returns an empty list rather than failing. -/
theorem c7_no_bonk_before_warmup (points : List TimeseriesPoint)
    (h : ∀ p ∈ points, p.elapsed_seconds < 600) :
    detect_bonk_default points = [] := by
  by_cases h0 : points = []
  · subst h0
    rfl
  · have hct : bonkCandidateTimes points 600 = [] := by
      unfold bonkCandidateTimes
      have hfil : points.filter
          (fun p => decide ((600:ℤ) ≤ p.elapsed_seconds)) = [] := by
        rw [List.filter_eq_nil_iff]
        intro p hp
        simp only [decide_eq_true_eq, not_le]
        exact h p hp
      rw [hfil]
      rfl
    simp only [detect_bonk_default, detect_bonk, if_neg h0, hct]
    rfl

/-- Witness for C7: a single pre-warmup sample. -/
theorem c7_witness :
    detect_bonk_default [({ elapsed_seconds := 0 } : TimeseriesPoint)] = [] :=
  c7_no_bonk_before_warmup _ (by decide)

-- ════════════════════════════════════════════════════════════════════
-- Claim C10 — merged bonk events are separated by > merge window
-- ════════════════════════════════════════════════════════════════════

/-- A surviving candidate keeps its candidate time. -/
lemma bonkCandidateAt_t (points : List TimeseriesPoint)
    (pd hs : ℚ) (pre_w post_w : ℤ) (hill : ℚ) (t : ℤ) (c : RawBonkCandidate)
    (h : bonkCandidateAt points pd hs pre_w post_w hill t = some c) :
    c.t = t := by
  unfold bonkCandidateAt at h
  repeat' split at h
  all_goals simp_all
  all_goals obtain ⟨-, -, hc⟩ := h
  all_goals rw [← hc]

/-- `bonkEventOf` carries the cluster representative's time as onset. -/
lemma bonkEventOf_onset (points : List TimeseriesPoint)
    (pre_w post_w rec_w : ℤ) (rec_t : ℚ) (c : RawBonkCandidate) :
    (bonkEventOf points pre_w post_w rec_w rec_t c).elapsed_seconds_onset
      = c.t := by
  unfold bonkEventOf
  cases hrp : rolling_median_pace points (c.t + post_w + rec_w) pre_w false with
  | some rp => simp [hrp]
  | none => simp [hrp]

/-- Time-respecting filterMap preserves sortedness of the kept times. -/
lemma pairwise_t_filterMap {f : ℤ → Option RawBonkCandidate}
    (hf : ∀ t c, f t = some c → c.t = t) :
    ∀ {ts : List ℤ}, ts.Pairwise (· ≤ ·) →
      (ts.filterMap f).Pairwise (fun a b => a.t ≤ b.t) := by
  intro ts
  induction ts with
  | nil =>
    intro _
    simp
  | cons t rest ih =>
    intro hpw
    rw [List.pairwise_cons] at hpw
    obtain ⟨hhead, htail⟩ := hpw
    cases hft : f t with
    | none => simpa [List.filterMap_cons, hft] using ih htail
    | some c =>
      rw [List.filterMap_cons_some hft, List.pairwise_cons]
      refine ⟨?_, ih htail⟩
      intro d hd
      rw [List.mem_filterMap] at hd
      obtain ⟨u, hu, hfu⟩ := hd
      rw [hf t c hft, hf u d hfu]
      exact hhead u hu

/-- The merge loop on a sorted candidate list yields clusters whose
representatives are separated by more than the merge window, and the
first emitted representative is no earlier than the initial one. -/
lemma mergeBonk_chain (W : ℤ) (rest : List RawBonkCandidate) :
    ∀ current : RawBonkCandidate,
      (∀ c ∈ rest, current.t ≤ c.t) →
      rest.Pairwise (fun a b => a.t ≤ b.t) →
      List.Chain' (fun a b => W < b.t - a.t)
          (mergeBonkCandidates W current rest) ∧
      ∀ x ∈ (mergeBonkCandidates W current rest).head?, current.t ≤ x.t := by
  induction rest with
  | nil =>
    intro current _ _
    constructor
    · simp [mergeBonkCandidates]
    · intro x hx
      simp [mergeBonkCandidates] at hx
      rw [hx]
  | cons c rest ih =>
    intro current hcur hpw
    rw [List.pairwise_cons] at hpw
    obtain ⟨hc_rest, hpw'⟩ := hpw
    by_cases hle : c.t - current.t ≤ W
    · have hstep : mergeBonkCandidates W current (c :: rest)
          = mergeBonkCandidates W
              (if current.pace_drop_pct < c.pace_drop_pct then c else current)
              rest := by
        simp [mergeBonkCandidates, hle]
      have hct : current.t
          ≤ (if current.pace_drop_pct < c.pace_drop_pct then c else current).t := by
        split
        · exact hcur c (List.mem_cons_self c rest)
        · exact le_refl _
      have hcur' : ∀ d ∈ rest,
          (if current.pace_drop_pct < c.pace_drop_pct then c else current).t
            ≤ d.t := by
        intro d hd
        split
        · exact hc_rest d hd
        · exact hcur d (List.mem_cons_of_mem c hd)
      obtain ⟨hchain, hhead⟩ := ih _ hcur' hpw'
      rw [hstep]
      exact ⟨hchain, fun x hx => le_trans hct (hhead x hx)⟩
    · have hstep : mergeBonkCandidates W current (c :: rest)
          = current :: mergeBonkCandidates W c rest := by
        simp [mergeBonkCandidates, hle]
      obtain ⟨hchain, hhead⟩ := ih c hc_rest hpw'
      rw [hstep]
      constructor
      · rw [List.chain'_cons']
        refine ⟨?_, hchain⟩
        intro y hy
        have hcy := hhead y hy
        have hgap : W < c.t - current.t := by omega
        omega
      · intro x hx
        simp at hx
        rw [hx]

/-- C10: over a timeseries satisfying the ordering invariant, the events
returned by `detect_bonk` (defaults: merge window 120 s) have strictly
increasing onsets, consecutive onsets differing by more than the merge
window. -/
theorem c10_bonk_events_separated (points : List TimeseriesPoint)
    (hsorted : (points.map (fun p => p.elapsed_seconds)).Pairwise (· ≤ ·)) :
    List.Chain' (fun a b =>
        (120:ℤ) < b.elapsed_seconds_onset - a.elapsed_seconds_onset)
      (detect_bonk_default points) := by
  by_cases h0 : points = []
  · subst h0
    simp [detect_bonk_default, detect_bonk]
  · simp only [detect_bonk_default, detect_bonk, if_neg h0]
    cases hraw : (bonkCandidateTimes points 600).filterMap
        (bonkCandidateAt points (2/10) 8 180 180 (5/100)) with
    | nil => simp
    | cons c0 rest =>
      have hct_sorted : (bonkCandidateTimes points 600).Pairwise (· ≤ ·) := by
        unfold bonkCandidateTimes
        have h1 : ((points.filter (fun p =>
            decide ((600:ℤ) ≤ p.elapsed_seconds))).map
              (fun p => p.elapsed_seconds)).Pairwise (· ≤ ·) :=
          hsorted.sublist ((List.filter_sublist points).map _)
        exact h1.sublist (List.filter_sublist _)
      have hraw_sorted : (c0 :: rest).Pairwise (fun a b => a.t ≤ b.t) := by
        rw [← hraw]
        exact pairwise_t_filterMap
          (fun t c hc => bonkCandidateAt_t points (2/10) 8 180 180 (5/100) t c hc)
          hct_sorted
      rw [List.pairwise_cons] at hraw_sorted
      obtain ⟨hc0, hrest⟩ := hraw_sorted
      have hchain := (mergeBonk_chain 120 rest c0 hc0 hrest).1
      rw [List.chain'_map]
      apply hchain.imp
      intro a b hab
      rw [bonkEventOf_onset, bonkEventOf_onset]
      exact hab

/-- Witness for C10 on a concrete sorted timeseries. -/
theorem c10_witness :
    List.Chain' (fun a b =>
        (120:ℤ) < b.elapsed_seconds_onset - a.elapsed_seconds_onset)
      (detect_bonk_default
        [({ elapsed_seconds := 0 } : TimeseriesPoint),
         ({ elapsed_seconds := 10 } : TimeseriesPoint)]) :=
  c10_bonk_events_separated _ (by decide)

-- ════════════════════════════════════════════════════════════════════
-- Claim C1 — segment-aware bonk detection stays inside active laps
-- ════════════════════════════════════════════════════════════════════

/-- Every element of the merge loop's output is the initial representative
or one of the remaining raw candidates. -/
lemma mergeBonk_mem (W : ℤ) (rest : List RawBonkCandidate) :
    ∀ (current x : RawBonkCandidate),
      x ∈ mergeBonkCandidates W current rest → x = current ∨ x ∈ rest := by
  induction rest with
  | nil =>
    intro current x hx
    simp [mergeBonkCandidates] at hx
    exact Or.inl hx
  | cons c rest ih =>
    intro current x hx
    by_cases hle : c.t - current.t ≤ W
    · rw [show mergeBonkCandidates W current (c :: rest)
          = mergeBonkCandidates W
              (if current.pace_drop_pct < c.pace_drop_pct then c else current)
              rest
          by simp [mergeBonkCandidates, hle]] at hx
      rcases ih _ x hx with h | h
      · by_cases hdrop : current.pace_drop_pct < c.pace_drop_pct
        · rw [if_pos hdrop] at h
          exact Or.inr (h ▸ List.mem_cons_self c rest)
        · rw [if_neg hdrop] at h
          exact Or.inl h
      · exact Or.inr (List.mem_cons_of_mem c h)
    · rw [show mergeBonkCandidates W current (c :: rest)
          = current :: mergeBonkCandidates W c rest
          by simp [mergeBonkCandidates, hle]] at hx
      rcases List.mem_cons.mp hx with h | h
      · exact Or.inl h
      · rcases ih c x h with h2 | h2
        · exact Or.inr (h2 ▸ List.mem_cons_self c rest)
        · exact Or.inr (List.mem_cons_of_mem c h2)

/-- Every returned event's onset is the elapsed time of some input point. -/
lemma detect_bonk_onset_mem (points : List TimeseriesPoint)
    (pd hs : ℚ) (pre_w post_w rec_w : ℤ) (rec_t hill : ℚ) (me mw : ℤ) :
    ∀ e ∈ detect_bonk points pd hs pre_w post_w rec_w rec_t hill me mw,
      ∃ p ∈ points, p.elapsed_seconds = e.elapsed_seconds_onset := by
  intro e he
  by_cases h0 : points = []
  · subst h0
    simp [detect_bonk] at he
  · simp only [detect_bonk, if_neg h0] at he
    cases hraw : (bonkCandidateTimes points me).filterMap
        (bonkCandidateAt points pd hs pre_w post_w hill) with
    | nil =>
      rw [hraw] at he
      simp at he
    | cons c0 rest =>
      rw [hraw] at he
      simp only [List.mem_map] at he
      obtain ⟨c, hc, rfl⟩ := he
      have hmem : c = c0 ∨ c ∈ rest := mergeBonk_mem mw rest c0 c hc
      have hcraw : c ∈ (bonkCandidateTimes points me).filterMap
          (bonkCandidateAt points pd hs pre_w post_w hill) := by
        rw [hraw]
        rcases hmem with h | h
        · exact h ▸ List.mem_cons_self c0 rest
        · exact List.mem_cons_of_mem c0 h
      rw [List.mem_filterMap] at hcraw
      obtain ⟨t, htmem, hft⟩ := hcraw
      have hct : c.t = t := bonkCandidateAt_t points pd hs pre_w post_w hill t c hft
      unfold bonkCandidateTimes at htmem
      rw [List.mem_filter] at htmem
      obtain ⟨htmem', -⟩ := htmem
      rw [List.mem_map] at htmem'
      obtain ⟨p, hp, hpe⟩ := htmem'
      rw [List.mem_filter] at hp
      refine ⟨p, hp.1, ?_⟩
      rw [hpe, bonkEventOf_onset, hct]

/-- C1: every bonk event returned by the segment-aware entry point has
its onset inside an active lap segment; in particular, laps tagged
non-active (walk/recovery) never host a reported onset. -/
theorem c1_segment_aware_bonk_active_only (points : List TimeseriesPoint)
    (segments : List LapSegment) :
    (detect_bonk_per_segment points segments).Forall (fun e =>
      ∃ s ∈ segments, s.is_active = true ∧
        s.start_elapsed_s ≤ e.elapsed_seconds_onset ∧
        e.elapsed_seconds_onset < s.end_elapsed_s) := by
  rw [List.forall_iff_forall_mem]
  intro e he
  unfold detect_bonk_per_segment detect_bonk_default at he
  obtain ⟨p, hp, hpe⟩ := detect_bonk_onset_mem _ _ _ _ _ _ _ _ _ _ e he
  rw [List.mem_filter] at hp
  obtain ⟨hpts, hpred⟩ := hp
  rw [List.any_eq_true] at hpred
  obtain ⟨s, hs, hcond⟩ := hpred
  simp only [Bool.and_eq_true, decide_eq_true_eq] at hcond
  refine ⟨s, hs, hcond.1.1, ?_, ?_⟩
  · rw [← hpe]
    exact hcond.1.2
  · rw [← hpe]
    exact hcond.2
